import Mathlib

/-!
Verification of the LiveKit voice-app backend (src/backend/agent.py and
src/backend/token_server.py) against its specification.

The two Python modules are shallowly embedded below. External effects are made
explicit parameters:
  * the network is a function `net : String → ProbeResult` giving, for each URL,
    the outcome of the bounded-timeout (3s) HTTP probe the code performs with
    `urllib.request.urlopen(url, timeout=3)` (`.failure` covers `urllib.error.URLError`,
    `OSError` and the socket timeout, exactly the exceptions the code catches);
  * the process environment is an `Env` record of the `os.getenv` values used;
  * the persisted configuration store (config.yaml) is the `disk` field of
    `ServerState`, rewritten in full on every successful update.
Python dict `.get(key, default)` accesses are modelled as `Option` fields read
with `Option.getD`; direct `dict[key]` accesses are modelled as plain fields.
-/

namespace LiveKitApp

/-! ## Python string helpers used by both modules -/

/-- Remove all trailing occurrences of `c` from a character list. -/
def dropTrailing (c : Char) (l : List Char) : List Char :=
  (l.reverse.dropWhile (· == c)).reverse

/-- Python `s.rstrip(c)` for a single-character strip set: remove all trailing
occurrences of `c`. -/
def pyRstrip (s : String) (c : Char) : String :=
  String.mk (dropTrailing c s.data)

/-- Index of the start of the last occurrence of the nonempty pattern `pat` in
a character list, `none` when it does not occur: a match further right (in the
tail) is preferred over one at the head. -/
def lastMatchIdx (pat : List Char) : List Char → Option Nat
  | [] => none
  | c :: cs =>
    match lastMatchIdx pat cs with
    | some i => some (i + 1)
    | none => if List.isPrefixOf pat (c :: cs) then some 0 else none

/-- Python `s.rsplit(sep, 1)[0]` for a nonempty separator: everything before
the last occurrence of `sep`, or `s` itself when `sep` does not occur. -/
def pyRsplitOnceHead (sep s : String) : String :=
  match lastMatchIdx sep.data s.data with
  | none => s
  | some i => String.mk (s.data.take i)

/-- Python `s.startswith(p)` for a single pattern string. -/
def pyStartsWith (s p : String) : Bool :=
  List.isPrefixOf p.data s.data

/-- Python `s.capitalize()`: first character upper-cased, the rest lower-cased
(the engine names involved are ASCII, where `Char.toUpper`/`Char.toLower` agree
with Python). -/
def pyCapitalize (s : String) : String :=
  match s.data with
  | [] => ""
  | ch :: cs => String.mk (ch.toUpper :: cs.map Char.toLower)

/-- Insertion step for `pySorted`. -/
def pySortedInsert (x : String) : List String → List String
  | [] => [x]
  | y :: ys => if x ≤ y then x :: y :: ys else y :: pySortedInsert x ys

/-- Python `sorted(...)` on strings (lexicographic by code point, the order of
`String.le`). -/
def pySorted : List String → List String
  | [] => []
  | x :: xs => pySortedInsert x (pySorted xs)

/-! ## Configuration data model (config.yaml as read by both modules) -/

/-- One entry of `llm.models`: `{id, label}`. -/
structure ModelEntry where
  id : String
  label : String
deriving DecidableEq

/-- One entry of `tts.voices`: `{id, label, engine}`; the code reads `engine`
with `v.get("engine", "unknown")`, so it is optional here. -/
structure VoiceEntry where
  id : String
  label : String
  engine : Option String
deriving DecidableEq

/-- A per-engine connection block under `tts.<engine>`; every field is read with
a `.get(key, default)`, so all are optional. The Python `speed` is a float used
only as an opaque configured value; it is modelled as a rational. -/
structure EngineCfg where
  base_url : Option String
  model : Option String
  voice : Option String
  speed : Option Rat
  api_key : Option String
deriving DecidableEq

/-- The empty dict `{}` that `config["tts"].get(engine, {})` falls back to. -/
def EngineCfg.empty : EngineCfg :=
  { base_url := none, model := none, voice := none, speed := none, api_key := none }

/-- The `app` section: both fields are accessed directly (`config["app"][...]`). -/
structure AppCfg where
  default_system_prompt : String
  room_name : String
deriving DecidableEq

/-- The `llm` section: `model` is accessed directly, `models` with
`.get("models", [])`. -/
structure LlmCfg where
  model : String
  models : Option (List ModelEntry)
deriving DecidableEq

/-- The `tts` section: `voice` is read with `.get("voice", "kokoro_af_heart")`,
`voices` with `.get("voices", [])`, `engine` directly (agent only); the
per-engine blocks form a name-keyed map read with `.get(engine, {})`. -/
structure TtsCfg where
  voice : Option String
  voices : Option (List VoiceEntry)
  engine : String
  engineCfgs : List (String × EngineCfg)
deriving DecidableEq

/-- The whole configuration document. -/
structure Config where
  app : AppCfg
  llm : LlmCfg
  tts : TtsCfg
deriving DecidableEq

/-- `config["tts"].get(engine, {})`. -/
def getEngineCfg (c : Config) (engine : String) : EngineCfg :=
  (Option.map Prod.snd (c.tts.engineCfgs.find? (fun p => p.1 == engine))).getD EngineCfg.empty

/-- Outcome of `urllib.request.urlopen(url, timeout=3)`: `.success` when the
endpoint answers within the 3-second timeout, `.failure` when the call raises
`urllib.error.URLError` / `OSError` (network error or timeout). -/
inductive ProbeResult where
  | success
  | failure
deriving DecidableEq

/-! ## agent.py -/

/-- `_GOOGLE_MODEL_PREFIXES = ("gemini-",)` (agent.py line 20). -/
def GOOGLE_MODEL_PREFIXES : List String := ["gemini-"]

/-- The LLM backend adapter chosen by `_build_llm`: the Google plugin or the
OpenAI plugin, each constructed with the model identifier. -/
inductive LLMClient where
  | google (model : String)
  | openai (model : String)
deriving DecidableEq

/-- agent.py `_build_llm` (lines 35–50): if the configured model name starts
with one of `_GOOGLE_MODEL_PREFIXES`, construct the Google plugin, otherwise
the OpenAI plugin. -/
def build_llm (c : Config) : LLMClient :=
  let model := c.llm.model
  if GOOGLE_MODEL_PREFIXES.any (fun p => pyStartsWith model p) then
    LLMClient.google model
  else
    LLMClient.openai model

/-- The TTS backend adapter constructed by `_build_tts`: the Cartesia plugin,
the OpenAI-compatible plugin (used for the Kokoro server), or the Piper plugin,
each carrying the constructor arguments the code passes. -/
inductive TTSClient where
  | cartesia (model : String) (voice : Option String)
  | openaiCompat (model : String) (voice : String) (speed : Rat)
      (base_url : String) (api_key : String)
  | piper (base_url : String)
deriving DecidableEq

/-- agent.py line 79 (inside `_build_tts`): the Kokoro health-check URL
`base_url.rstrip("/").rsplit("/v1", 1)[0] + "/v1/models"`. -/
def agentKokoroHealthUrl (base_url : String) : String :=
  pyRsplitOnceHead "/v1" (pyRstrip base_url '/') ++ "/v1/models"

/-- Result of `_build_tts`: either a raised `ValueError` (the error message) or
an optional client (`none` = text-only mode), together with the warning-level
log lines emitted (the interpolated exception text of the Python log record is
elided). -/
structure TtsBuildOutcome where
  result : Except String (Option TTSClient)
  warnings : List String

/-- agent.py `_build_tts` (lines 53–105): dispatch on `config["tts"]["engine"]`.
`cartesia` constructs unconditionally; `kokoro` first probes its derived health
URL with a 3-second timeout and returns `None` (logging a warning) when the
probe fails; `piper` constructs unconditionally; any other engine raises
`ValueError`. -/
def build_tts (c : Config) (net : String → ProbeResult) : TtsBuildOutcome :=
  let engine := c.tts.engine
  let engine_cfg := getEngineCfg c engine
  if engine = "cartesia" then
    { result := Except.ok (some (TTSClient.cartesia (engine_cfg.model.getD "sonic-3")
        engine_cfg.voice)),
      warnings := [] }
  else if engine = "kokoro" then
    let base_url := engine_cfg.base_url.getD "http://localhost:8880/v1"
    let health_url := agentKokoroHealthUrl base_url
    match net health_url with
    | ProbeResult.failure =>
        { result := Except.ok none,
          warnings := ["Kokoro TTS server not reachable at " ++ base_url ++
            " — running in text-only mode"] }
    | ProbeResult.success =>
        { result := Except.ok (some (TTSClient.openaiCompat
            (engine_cfg.model.getD "kokoro")
            (engine_cfg.voice.getD "af_heart")
            (engine_cfg.speed.getD 1)
            base_url
            (engine_cfg.api_key.getD "not-needed"))),
          warnings := [] }
  else if engine = "piper" then
    { result := Except.ok (some (TTSClient.piper
        (engine_cfg.base_url.getD "http://localhost:5000"))),
      warnings := [] }
  else
    { result := Except.error ("Unknown TTS engine \x27" ++ engine ++
        "\x27. Supported engines: cartesia, kokoro, piper"),
      warnings := [] }

/-- The `RuntimeError` that `AgentSession.interrupt()` raises when there is no
active generation to stop (the condition `on_interrupt` catches). -/
inductive SessionRuntimeError where
  | noActiveGeneration
deriving DecidableEq

/-- agent.py `on_interrupt` (lines 141–147): `try: await session.interrupt()
... except RuntimeError: ...; return "ok"`. The outcome of the external
`session.interrupt()` call is the explicit argument: it either completes or
raises the `RuntimeError` above. -/
def on_interrupt (interruptResult : Except SessionRuntimeError Unit) : String :=
  match interruptResult with
  | Except.ok _ => "ok"
  | Except.error _ => "ok"

/-- The `room_io.RoomOptions` record passed to `session.start` (agent.py lines
156–162); `text_input` and `text_output` keep their default `True` (the code
leaves them at the default, as its comments note). -/
structure RoomOptions where
  audio_input : Bool
  audio_output : Bool
  text_input : Bool
  text_output : Bool
  delete_room_on_close : Bool
deriving DecidableEq

/-- What `entrypoint` hands to `session.start`: the built LLM and optional TTS
clients, the agent instructions, and the room options. -/
structure SessionStart where
  llm : LLMClient
  tts : Option TTSClient
  instructions : String
  options : RoomOptions

/-- agent.py `entrypoint` (lines 111–168): re-read config, build TTS (a raised
`ValueError` propagates and aborts the session), build LLM, create the agent
with the configured default prompt, and start the session with
`audio_input=False`, `audio_output = True if tts is not None else False`,
default text channels, and `delete_room_on_close=True`. -/
def entrypoint (c : Config) (net : String → ProbeResult) : Except String SessionStart :=
  match (build_tts c net).result with
  | Except.error e => Except.error e
  | Except.ok tts =>
      Except.ok
        { llm := build_llm c
          tts := tts
          instructions := c.app.default_system_prompt
          options :=
            { audio_input := false
              audio_output := if tts.isSome then true else false
              text_input := true
              text_output := true
              delete_room_on_close := true } }

/-! ## token_server.py -/

/-- The process environment values the token server reads with `os.getenv`. -/
structure Env where
  livekit_api_key : Option String
  livekit_api_secret : Option String
  livekit_url : Option String
deriving DecidableEq

/-- In-memory plus persisted configuration of the token server: `config` is the
module-global dict, `disk` the current content of config.yaml. -/
structure ServerState where
  config : Config
  disk : Config
deriving DecidableEq

/-- token_server.py module level (lines 25–40): load `.env.local`, read
config.yaml into the global `config`. No LiveKit secret is read or validated
at module load time — the `os.getenv` calls for the key pair sit inside the
`get_token` request handler. -/
def token_server_startup (_env : Env) (c : Config) : Except String ServerState :=
  Except.ok { config := c, disk := c }

/-- The `VideoGrants` attached to an issued token. -/
structure VideoGrants where
  room_join : Bool
  room : String
  can_publish : Bool
  can_subscribe : Bool
deriving DecidableEq

/-- The content of the signed credential built in `get_token`: identity, kind
marker, grants, and the agent names of the `RoomAgentDispatch` entries in the
room configuration. -/
structure SignedToken where
  identity : String
  kind : String
  grants : VideoGrants
  dispatch_agent_names : List String
deriving DecidableEq

/-- Modelled from the spec: the external `livekit.api.AccessToken` signing step
(not part of src/). Per §4.4, "Signing uses a process-wide secret pair"; when
the key or secret is absent the signing operation fails instead of producing a
credential. The cryptographic JWT encoding is not modelled: signing returns the
token content unchanged. -/
def accessTokenToJwt (key secret : Option String) (tok : SignedToken) :
    Except String SignedToken :=
  match key, secret with
  | some _, some _ => Except.ok tok
  | _, _ => Except.error "api_key and api_secret must be set"

/-- The `{token, url}` response of `/api/token`. -/
structure TokenResponse where
  token : SignedToken
  url : Option String
deriving DecidableEq

/-- token_server.py `get_token` (lines 43–67): per request, read the key pair
from the environment, build an `AccessToken` for the given identity with kind
`"standard"`, room-join grants on the configured room, and an agent dispatch
entry with empty agent name, sign it, and return it with `LIVEKIT_URL`. -/
def get_token (env : Env) (c : Config) (identity : String) :
    Except String TokenResponse :=
  match accessTokenToJwt env.livekit_api_key env.livekit_api_secret
      { identity := identity
        kind := "standard"
        grants :=
          { room_join := true
            room := c.app.room_name
            can_publish := true
            can_subscribe := true }
        dispatch_agent_names := [""] } with
  | Except.ok t => Except.ok { token := t, url := env.livekit_url }
  | Except.error e => Except.error e

/-- The `/api/config` response body. -/
structure ConfigResponse where
  default_system_prompt : String
  room_name : String
  active_model : String
  models : List ModelEntry
  active_voice : String
  voices : List VoiceEntry
deriving DecidableEq

/-- token_server.py `get_config` (lines 70–80): a pure projection of the
in-memory configuration. -/
def get_config (c : Config) : ConfigResponse :=
  { default_system_prompt := c.app.default_system_prompt
    room_name := c.app.room_name
    active_model := c.llm.model
    models := c.llm.models.getD []
    active_voice := c.tts.voice.getD "kokoro_af_heart"
    voices := c.tts.voices.getD [] }

/-- A FastAPI `HTTPException` as raised by the two update endpoints; the
`detail` f-string `"Unknown ... '<id>'. Allowed: <sorted(allowed_ids)>"` is
kept as its two data components: the rejected id and the sorted, deduplicated
allowed-id list. -/
structure HTTPError where
  status_code : Nat
  unknown : String
  allowed : List String
deriving DecidableEq

/-- `{m["id"] for m in config["llm"].get("models", [])}` as a list (set
membership = list membership of the mapped ids). -/
def allowedModelIds (c : Config) : List String :=
  (c.llm.models.getD []).map (fun m => m.id)

/-- `{v["id"] for v in config["tts"].get("voices", [])}` as a list. -/
def allowedVoiceIds (c : Config) : List String :=
  (c.tts.voices.getD []).map (fun v => v.id)

/-- The `/api/config/model` response body. -/
structure ModelResponse where
  active_model : String
deriving DecidableEq

/-- token_server.py `set_model` (lines 88–109): reject an id outside the model
catalog with HTTP 400 carrying the sorted allowed set, touching nothing;
otherwise set `config["llm"]["model"]`, rewrite the whole config.yaml, and
return the new active model. The returned state is the (unchanged or updated)
in-memory + persisted pair. -/
def set_model (st : ServerState) (model : String) :
    ServerState × Except HTTPError ModelResponse :=
  let allowed_ids := allowedModelIds st.config
  if model ∉ allowed_ids then
    (st, Except.error
      { status_code := 400, unknown := model, allowed := pySorted allowed_ids.eraseDups })
  else
    let config2 := { st.config with llm := { st.config.llm with model := model } }
    ({ config := config2, disk := config2 }, Except.ok { active_model := model })

/-- The `/api/config/voice` response body. -/
structure VoiceResponse where
  active_voice : String
deriving DecidableEq

/-- token_server.py `set_voice` (lines 117–138): symmetric to `set_model`,
validated against the voice catalog ids only (the `text_only` sentinel gets no
special case). -/
def set_voice (st : ServerState) (voice : String) :
    ServerState × Except HTTPError VoiceResponse :=
  let allowed_ids := allowedVoiceIds st.config
  if voice ∉ allowed_ids then
    (st, Except.error
      { status_code := 400, unknown := voice, allowed := pySorted allowed_ids.eraseDups })
  else
    let config2 := { st.config with tts := { st.config.tts with voice := some voice } }
    ({ config := config2, disk := config2 }, Except.ok { active_voice := voice })

/-- `_LOCAL_ENGINES = {"kokoro", "piper"}` (token_server.py line 142). -/
def LOCAL_ENGINES : List String := ["kokoro", "piper"]

/-- token_server.py line 177 (inside `tts_status`): the Kokoro health-check URL
`base_url.rstrip("/").rsplit("/v1", 1)[0] + "/v1/models"`. -/
def serverKokoroHealthUrl (base_url : String) : String :=
  pyRsplitOnceHead "/v1" (pyRstrip base_url '/') ++ "/v1/models"

/-- token_server.py lines 175–182: the health URL probed by `tts_status` for a
local engine (`none` on the dead `else` arm, which no member of
`_LOCAL_ENGINES` reaches). -/
def statusHealthUrl (engine_cfg : EngineCfg) (engine : String) : Option String :=
  if engine = "kokoro" then
    some (serverKokoroHealthUrl (engine_cfg.base_url.getD "http://localhost:8880/v1"))
  else if engine = "piper" then
    some (pyRstrip (engine_cfg.base_url.getD "http://localhost:8881") '/' ++ "/voices")
  else none

/-- The `/api/tts/status` response body. -/
structure TtsStatusResponse where
  engine : String
  status : String
  label : String
deriving DecidableEq

/-- token_server.py `tts_status` (lines 146–191): `text_only` short-circuits to
`ok`; an active voice absent from the catalog is an `error`; a non-local
(cloud) engine is `ok` without any probe; a local engine is probed at its
health URL with a 3-second timeout and reported `online` on success, `offline`
on `URLError`/`OSError`. -/
def tts_status (c : Config) (net : String → ProbeResult) : TtsStatusResponse :=
  let voice_id := c.tts.voice.getD "kokoro_af_heart"
  if voice_id = "text_only" then
    { engine := "text_only", status := "ok", label := "Text Only" }
  else
    match (c.tts.voices.getD []).find? (fun v => v.id == voice_id) with
    | none => { engine := "unknown", status := "error", label := "Unknown voice" }
    | some entry =>
      let engine := entry.engine.getD "unknown"
      let engine_cfg := getEngineCfg c engine
      if engine ∉ LOCAL_ENGINES then
        { engine := engine, status := "ok", label := "Cloud (" ++ pyCapitalize engine ++ ")" }
      else
        let label := pyCapitalize engine
        match statusHealthUrl engine_cfg engine with
        | some health_url =>
          match net health_url with
          | ProbeResult.success => { engine := engine, status := "online", label := label }
          | ProbeResult.failure => { engine := engine, status := "offline", label := label }
        | none => { engine := engine, status := "unknown", label := label }

/-! ## Concrete fixtures (for witness evaluations) -/

/-- A small model catalog. -/
def exModels : List ModelEntry :=
  [{ id := "gpt-4o-mini", label := "GPT-4o mini" },
   { id := "gemini-2.0-flash", label := "Gemini 2.0 Flash" }]

/-- A voice catalog covering one voice of each engine. -/
def exVoices : List VoiceEntry :=
  [{ id := "kokoro_af_heart", label := "Kokoro Heart", engine := some "kokoro" },
   { id := "cartesia_female", label := "Cartesia Female", engine := some "cartesia" },
   { id := "piper_en", label := "Piper English", engine := some "piper" }]

/-- A `tts.kokoro` block holding only a base URL. -/
def exKokoroCfg : EngineCfg :=
  { base_url := some "http://localhost:8880/v1", model := none, voice := none,
    speed := none, api_key := none }

/-- A full configuration document. -/
def exConfig : Config :=
  { app := { default_system_prompt := "You are a helpful assistant.",
             room_name := "voice-room" }
    llm := { model := "gpt-4o-mini", models := some exModels }
    tts := { voice := some "kokoro_af_heart", voices := some exVoices,
             engine := "kokoro", engineCfgs := [("kokoro", exKokoroCfg)] } }

/-- Token-server state right after startup on `exConfig`. -/
def exState : ServerState := { config := exConfig, disk := exConfig }

/-- A network on which every probe succeeds. -/
def netUp : String → ProbeResult := fun _ => ProbeResult.success

/-- A network on which every probe raises (unreachable or timed out). -/
def netDown : String → ProbeResult := fun _ => ProbeResult.failure

/-- `exConfig` with the `text_only` sentinel active. -/
def exConfigTextOnly : Config :=
  { exConfig with tts := { exConfig.tts with voice := some "text_only" } }

/-- `exConfig` with an active voice absent from the catalog. -/
def exConfigGhost : Config :=
  { exConfig with tts := { exConfig.tts with voice := some "ghost" } }

/-- `exConfig` with a cloud-engine voice active. -/
def exConfigCloud : Config :=
  { exConfig with tts := { exConfig.tts with voice := some "cartesia_female" } }

/-- `exConfig` with the agent-side TTS engine set to cartesia. -/
def exConfigCartesia : Config :=
  { exConfig with tts := { exConfig.tts with engine := "cartesia" } }

/-- `exConfig` with an unrecognised agent-side TTS engine. -/
def exConfigBadEngine : Config :=
  { exConfig with tts := { exConfig.tts with engine := "espeak" } }

/-- An environment with the API key present but the signing secret missing. -/
def envNoSecret : Env :=
  { livekit_api_key := some "devkey", livekit_api_secret := none,
    livekit_url := some "wss://example.livekit.cloud" }

/-- An environment with the full key pair present. -/
def envFull : Env :=
  { livekit_api_key := some "devkey", livekit_api_secret := some "devsecret",
    livekit_url := some "wss://example.livekit.cloud" }

/-! ## Claim theorems -/

/-- C3: the per-session `interrupt` RPC always returns "ok": both when the
underlying cancellation completes and when it raises the "nothing to
interrupt" `RuntimeError`, which the handler catches and treats as success, so
no unhandled error reaches the caller. -/
theorem on_interrupt_always_ok (r : Except SessionRuntimeError Unit) :
    on_interrupt r = "ok" := by
  cases r <;> rfl

/-- C4: the LLM backend selector is a pure, deterministic function of the model
identifier: identifiers starting with the alternate-provider marker "gemini-"
select the Google adapter, all others the OpenAI adapter, and the selection
depends only on the identifier. -/
theorem build_llm_selects_by_identifier (c : Config) :
    (pyStartsWith c.llm.model "gemini-" = true →
      build_llm c = LLMClient.google c.llm.model) ∧
    (pyStartsWith c.llm.model "gemini-" = false →
      build_llm c = LLMClient.openai c.llm.model) ∧
    (∀ c2 : Config, c2.llm.model = c.llm.model → build_llm c2 = build_llm c) := by
  refine ⟨?_, ?_, ?_⟩
  · intro h
    simp [build_llm, GOOGLE_MODEL_PREFIXES, h]
  · intro h
    simp [build_llm, GOOGLE_MODEL_PREFIXES, h]
  · intro c2 h
    simp [build_llm, GOOGLE_MODEL_PREFIXES, h]

/-- C4 witness: the two branches instantiated on concrete identifiers. -/
theorem build_llm_selects_by_identifier_witness :
    build_llm { exConfig with llm := { exConfig.llm with model := "gemini-2.0-flash" } } =
      LLMClient.google "gemini-2.0-flash" ∧
    build_llm exConfig = LLMClient.openai "gpt-4o-mini" := by
  constructor
  · exact (build_llm_selects_by_identifier _).1 (by decide)
  · exact (build_llm_selects_by_identifier exConfig).2.1 (by decide)

/-- C10: the Kokoro health-check URL derivation duplicated in agent.py
(`_build_tts`) and token_server.py (`tts_status`) computes the same function
of the configured base URL. -/
theorem kokoro_health_url_agreement (base_url : String) :
    agentKokoroHealthUrl base_url = serverKokoroHealthUrl base_url := rfl

/-- C7: for any engine name outside {cartesia, kokoro, piper} the TTS selector
raises a `ValueError` whose message names the unknown engine and the supported
set; it never falls through to a client or to the "absent" result. -/
theorem build_tts_unknown_engine_fails (c : Config) (net : String → ProbeResult)
    (h : c.tts.engine ∉ ["cartesia", "kokoro", "piper"]) :
    (build_tts c net).result =
      Except.error ("Unknown TTS engine \x27" ++ c.tts.engine ++
        "\x27. Supported engines: cartesia, kokoro, piper") ∧
    ∀ r : Option TTSClient, (build_tts c net).result ≠ Except.ok r := by
  simp only [List.mem_cons, List.mem_singleton, not_or] at h
  obtain ⟨h1, h2, h3⟩ := h
  constructor
  · simp [build_tts, h1, h2, h3]
  · intro r
    simp [build_tts, h1, h2, h3]

/-- C7 witness: the selector rejects the concrete engine "espeak". -/
theorem build_tts_unknown_engine_fails_witness :
    (build_tts exConfigBadEngine netUp).result =
      Except.error ("Unknown TTS engine \x27" ++ "espeak" ++
        "\x27. Supported engines: cartesia, kokoro, piper") ∧
    (build_tts exConfigBadEngine netUp).result ≠ Except.ok none := by
  have h := build_tts_unknown_engine_fails exConfigBadEngine netUp (by decide)
  exact ⟨h.1, h.2 none⟩

/-- C2: for engine `kokoro`, the TTS selector probes the derived health URL
(bounded by the 3-second timeout of the embedded probe); on probe failure it
logs a warning and returns the "absent" result (`none`) instead of raising, and
on success it returns a client configured with base URL, model, voice, speed
and a credential defaulted to the "not-needed" placeholder; in both cases the
caller receives `ok` (a usable client or the explicit absent signal), never a
raised error. -/
theorem build_tts_kokoro_probe (c : Config) (net : String → ProbeResult)
    (h : c.tts.engine = "kokoro") :
    (net (agentKokoroHealthUrl ((getEngineCfg c "kokoro").base_url.getD
        "http://localhost:8880/v1")) = ProbeResult.failure →
      (build_tts c net).result = Except.ok none ∧
      (build_tts c net).warnings =
        ["Kokoro TTS server not reachable at " ++
          ((getEngineCfg c "kokoro").base_url.getD "http://localhost:8880/v1") ++
          " — running in text-only mode"]) ∧
    (net (agentKokoroHealthUrl ((getEngineCfg c "kokoro").base_url.getD
        "http://localhost:8880/v1")) = ProbeResult.success →
      (build_tts c net).result = Except.ok (some (TTSClient.openaiCompat
        ((getEngineCfg c "kokoro").model.getD "kokoro")
        ((getEngineCfg c "kokoro").voice.getD "af_heart")
        ((getEngineCfg c "kokoro").speed.getD 1)
        ((getEngineCfg c "kokoro").base_url.getD "http://localhost:8880/v1")
        ((getEngineCfg c "kokoro").api_key.getD "not-needed")))) ∧
    (∃ r : Option TTSClient, (build_tts c net).result = Except.ok r) := by
  refine ⟨?_, ?_, ?_⟩
  · intro hf
    constructor <;> simp [build_tts, h, hf]
  · intro hs
    simp [build_tts, h, hs]
  · cases hnet : net (agentKokoroHealthUrl ((getEngineCfg c "kokoro").base_url.getD
        "http://localhost:8880/v1")) with
    | success =>
        refine ⟨some (TTSClient.openaiCompat
          ((getEngineCfg c "kokoro").model.getD "kokoro")
          ((getEngineCfg c "kokoro").voice.getD "af_heart")
          ((getEngineCfg c "kokoro").speed.getD 1)
          ((getEngineCfg c "kokoro").base_url.getD "http://localhost:8880/v1")
          ((getEngineCfg c "kokoro").api_key.getD "not-needed")), ?_⟩
        simp [build_tts, h, hnet]
    | failure =>
        refine ⟨none, ?_⟩
        simp [build_tts, h, hnet]

/-- C2 witness: on `exConfig` (engine kokoro), an unreachable network yields
the absent result with a warning logged, and a reachable one yields the
configured client. -/
theorem build_tts_kokoro_probe_witness :
    (build_tts exConfig netDown).result = Except.ok none ∧
    (build_tts exConfig netDown).warnings =
      ["Kokoro TTS server not reachable at " ++ "http://localhost:8880/v1" ++
        " — running in text-only mode"] ∧
    (build_tts exConfig netUp).result = Except.ok (some (TTSClient.openaiCompat
      "kokoro" "af_heart" 1 "http://localhost:8880/v1" "not-needed")) := by
  have hd := (build_tts_kokoro_probe exConfig netDown rfl).1 rfl
  have hu := (build_tts_kokoro_probe exConfig netUp rfl).2.1 rfl
  exact ⟨hd.1, hd.2, hu⟩

/-- C5: every session the entrypoint starts has inbound audio disabled, both
text channels enabled, the room deleted on close, and outbound audio enabled
exactly when TTS selection produced a client (disabled when it returned the
"absent" result). -/
theorem entrypoint_room_options (c : Config) (net : String → ProbeResult)
    (s : SessionStart) (h : entrypoint c net = Except.ok s) :
    (s.tts = none → s.options.audio_output = false) ∧
    (s.tts ≠ none → s.options.audio_output = true) ∧
    s.options.audio_input = false ∧
    s.options.text_input = true ∧
    s.options.text_output = true ∧
    s.options.delete_room_on_close = true := by
  unfold entrypoint at h
  cases hr : (build_tts c net).result with
  | error e => rw [hr] at h; cases h
  | ok tts =>
      rw [hr] at h
      cases h
      cases tts <;> simp

/-- The session start `entrypoint` produces on `exConfig` when the Kokoro
server is unreachable: text-only mode. -/
def exStartTextOnly : SessionStart :=
  { llm := LLMClient.openai "gpt-4o-mini"
    tts := none
    instructions := "You are a helpful assistant."
    options :=
      { audio_input := false
        audio_output := false
        text_input := true
        text_output := true
        delete_room_on_close := true } }

/-- The session start `entrypoint` produces on `exConfigCartesia`: TTS enabled. -/
def exStartCartesia : SessionStart :=
  { llm := LLMClient.openai "gpt-4o-mini"
    tts := some (TTSClient.cartesia "sonic-3" none)
    instructions := "You are a helpful assistant."
    options :=
      { audio_input := false
        audio_output := true
        text_input := true
        text_output := true
        delete_room_on_close := true } }

/-- C5 witness: a degraded (text-only) session start on `exConfig` with the
Kokoro server down, and a TTS-enabled start on the cartesia engine. -/
theorem entrypoint_room_options_witness :
    entrypoint exConfig netDown = Except.ok exStartTextOnly ∧
    exStartTextOnly.tts = none ∧
    exStartTextOnly.options.audio_output = false ∧
    exStartTextOnly.options.audio_input = false ∧
    exStartTextOnly.options.text_input = true ∧
    exStartTextOnly.options.text_output = true ∧
    exStartTextOnly.options.delete_room_on_close = true ∧
    entrypoint exConfigCartesia netUp = Except.ok exStartCartesia ∧
    exStartCartesia.options.audio_output = true := by
  have hp := entrypoint_room_options exConfig netDown exStartTextOnly rfl
  have hq := entrypoint_room_options exConfigCartesia netUp exStartCartesia rfl
  exact ⟨rfl, rfl, hp.1 rfl, hp.2.2.1, hp.2.2.2.1, hp.2.2.2.2.1, hp.2.2.2.2.2,
    rfl, hq.2.1 (by decide)⟩

/-- C6 counterexample: with the signing secret absent from the environment the
token server still starts up successfully, and the failure instead occurs
inside an individual `get_token` request — refuting "a missing signing secret
causes a startup-time failure and never a per-request failure of issue_token".
-/
theorem token_missing_secret_counterexample :
    token_server_startup envNoSecret exConfig =
      Except.ok { config := exConfig, disk := exConfig } ∧
    get_token envNoSecret exConfig "alice" =
      Except.error "api_key and api_secret must be set" := ⟨rfl, rfl⟩

/-- C6 (amended): the signing secret pair is consulted per request inside
`get_token`, not at startup: startup succeeds whatever the environment holds;
a request with a missing key or secret fails with the signing error for that
request only; a request with both present returns the signed credential with
the expected identity, kind, grants and dispatch entry. -/
theorem token_secret_read_per_request (env : Env) (c : Config) (who : String) :
    token_server_startup env c = Except.ok { config := c, disk := c } ∧
    (env.livekit_api_key = none ∨ env.livekit_api_secret = none →
      get_token env c who = Except.error "api_key and api_secret must be set") ∧
    (∀ k s, env.livekit_api_key = some k → env.livekit_api_secret = some s →
      get_token env c who = Except.ok
        { token :=
            { identity := who, kind := "standard",
              grants := { room_join := true, room := c.app.room_name,
                          can_publish := true, can_subscribe := true },
              dispatch_agent_names := [""] },
          url := env.livekit_url }) := by
  refine ⟨rfl, ?_, ?_⟩
  · rintro (hk | hs)
    · simp [get_token, accessTokenToJwt, hk]
    · cases hkk : env.livekit_api_key <;>
        simp [get_token, accessTokenToJwt, hs, hkk]
  · intro k s hk hs
    simp [get_token, accessTokenToJwt, hk, hs]

/-- C6 (amended) witness: startup and a successful request on the full
environment, and a failed request on the secretless one. -/
theorem token_secret_read_per_request_witness :
    token_server_startup envFull exConfig =
      Except.ok { config := exConfig, disk := exConfig } ∧
    get_token envNoSecret exConfig "alice" =
      Except.error "api_key and api_secret must be set" ∧
    get_token envFull exConfig "alice" = Except.ok
      { token :=
          { identity := "alice", kind := "standard",
            grants := { room_join := true, room := "voice-room",
                        can_publish := true, can_subscribe := true },
            dispatch_agent_names := [""] },
        url := some "wss://example.livekit.cloud" } := by
  refine ⟨(token_secret_read_per_request envFull exConfig "alice").1, ?_, ?_⟩
  · exact (token_secret_read_per_request envNoSecret exConfig "alice").2.1 (Or.inr rfl)
  · exact (token_secret_read_per_request envFull exConfig "alice").2.2
      "devkey" "devsecret" rfl rfl

/-- C1: `set_model` rejects an id outside the model catalog with HTTP 400
carrying the sorted allowed set and changes neither the in-memory
configuration nor the persisted store; with a catalogued id it sets the
in-memory active model, rewrites the persisted store in full so that it equals
the in-memory value, returns the new active value, and `get_config` then
reports the new active model. -/
theorem set_model_validates_and_persists (st : ServerState) (m : String) :
    (m ∉ allowedModelIds st.config →
      (set_model st m).1 = st ∧
      (set_model st m).2 = Except.error
        { status_code := 400, unknown := m,
          allowed := pySorted (allowedModelIds st.config).eraseDups }) ∧
    (m ∈ allowedModelIds st.config →
      (set_model st m).2 = Except.ok { active_model := m } ∧
      (set_model st m).1.config.llm.model = m ∧
      (set_model st m).1.disk = (set_model st m).1.config ∧
      (get_config (set_model st m).1.config).active_model = m) := by
  constructor
  · intro hm
    constructor <;> simp [set_model, hm]
  · intro hm
    refine ⟨?_, ?_, ?_, ?_⟩ <;> simp [set_model, hm, get_config]

/-- C1 witness: on `exState`, the uncatalogued id "nope" is rejected with 400
and no mutation, while the catalogued id "gemini-2.0-flash" becomes active in
memory, on disk and in `get_config`. -/
theorem set_model_validates_and_persists_witness :
    (set_model exState "nope").1 = exState ∧
    (set_model exState "nope").2 = Except.error
      { status_code := 400, unknown := "nope",
        allowed := pySorted (allowedModelIds exConfig).eraseDups } ∧
    (set_model exState "gemini-2.0-flash").2 =
      Except.ok { active_model := "gemini-2.0-flash" } ∧
    (set_model exState "gemini-2.0-flash").1.config.llm.model = "gemini-2.0-flash" ∧
    (set_model exState "gemini-2.0-flash").1.disk =
      (set_model exState "gemini-2.0-flash").1.config ∧
    (get_config (set_model exState "gemini-2.0-flash").1.config).active_model =
      "gemini-2.0-flash" := by
  have h1 := (set_model_validates_and_persists exState "nope").1 (by decide)
  have h2 := (set_model_validates_and_persists exState "gemini-2.0-flash").2 (by decide)
  exact ⟨h1.1, h1.2, h2.1, h2.2.1, h2.2.2.1, h2.2.2.2⟩

/-- C9: `set_voice` validates strictly against the voice catalog ids with no
special case for the `text_only` sentinel: any uncatalogued voice — including
"text_only" whenever it is not itself listed — yields HTTP 400 and no
mutation, and any change of the active voice through this endpoint implies the
requested id was in the catalog. -/
theorem set_voice_strictly_catalogued (st : ServerState) (v : String) :
    (v ∉ allowedVoiceIds st.config →
      (set_voice st v).1 = st ∧
      (set_voice st v).2 = Except.error
        { status_code := 400, unknown := v,
          allowed := pySorted (allowedVoiceIds st.config).eraseDups }) ∧
    ((set_voice st v).1.config.tts.voice ≠ st.config.tts.voice →
      v ∈ allowedVoiceIds st.config ∧
      (set_voice st v).1.config.tts.voice = some v) := by
  constructor
  · intro hv
    constructor <;> simp [set_voice, hv]
  · intro hch
    by_cases hv : v ∈ allowedVoiceIds st.config
    · exact ⟨hv, by simp [set_voice, hv]⟩
    · exact absurd (by simp [set_voice, hv]) hch

/-- C9 witness: on `exState` (whose catalog does not list "text_only"), the
request for "text_only" is rejected with 400 and no mutation, while the
catalogued "piper_en" does change the active voice. -/
theorem set_voice_strictly_catalogued_witness :
    (set_voice exState "text_only").1 = exState ∧
    (set_voice exState "text_only").2 = Except.error
      { status_code := 400, unknown := "text_only",
        allowed := pySorted (allowedVoiceIds exConfig).eraseDups } ∧
    "piper_en" ∈ allowedVoiceIds exConfig ∧
    (set_voice exState "piper_en").1.config.tts.voice = some "piper_en" := by
  have h1 := (set_voice_strictly_catalogued exState "text_only").1 (by decide)
  have h2 := (set_voice_strictly_catalogued exState "piper_en").2 (by decide)
  exact ⟨h1.1, h1.2, h2.1, h2.2⟩

/-- C8: `tts_status` reports `ok` unconditionally for the `text_only`
sentinel; an "Unknown voice" error for an active voice absent from the
catalog; `ok` without any probe (its result is independent of the network) for
a cloud-engine voice; and for a local engine (kokoro/piper) it probes that
engine's derived health URL with the 3-second-bounded probe, reporting
`online` exactly on probe success and `offline` on network error or timeout. -/
theorem tts_status_reports_by_engine (c : Config) (net : String → ProbeResult) :
    (c.tts.voice.getD "kokoro_af_heart" = "text_only" →
      tts_status c net =
        { engine := "text_only", status := "ok", label := "Text Only" }) ∧
    (c.tts.voice.getD "kokoro_af_heart" ≠ "text_only" →
      (c.tts.voices.getD []).find?
          (fun v => v.id == c.tts.voice.getD "kokoro_af_heart") = none →
      tts_status c net =
        { engine := "unknown", status := "error", label := "Unknown voice" }) ∧
    (∀ entry : VoiceEntry, c.tts.voice.getD "kokoro_af_heart" ≠ "text_only" →
      (c.tts.voices.getD []).find?
          (fun v => v.id == c.tts.voice.getD "kokoro_af_heart") = some entry →
      entry.engine.getD "unknown" ∉ LOCAL_ENGINES →
      (tts_status c net).status = "ok" ∧
      ∀ net2, tts_status c net2 = tts_status c net) ∧
    (∀ entry : VoiceEntry, c.tts.voice.getD "kokoro_af_heart" ≠ "text_only" →
      (c.tts.voices.getD []).find?
          (fun v => v.id == c.tts.voice.getD "kokoro_af_heart") = some entry →
      entry.engine.getD "unknown" ∈ LOCAL_ENGINES →
      ∃ hu, statusHealthUrl (getEngineCfg c (entry.engine.getD "unknown"))
              (entry.engine.getD "unknown") = some hu ∧
        tts_status c net =
          { engine := entry.engine.getD "unknown"
            status := if net hu = ProbeResult.success then "online" else "offline"
            label := pyCapitalize (entry.engine.getD "unknown") }) := by
  refine ⟨?_, ?_, ?_, ?_⟩
  · intro h
    simp [tts_status, h]
  · intro h hf
    simp [tts_status, h, hf]
  · intro entry h hf hnl
    constructor
    · simp [tts_status, h, hf, hnl]
    · intro net2
      simp [tts_status, h, hf, hnl]
  · intro entry h hf hl
    have hl2 : entry.engine.getD "unknown" = "kokoro" ∨
        entry.engine.getD "unknown" = "piper" := by
      simpa [LOCAL_ENGINES] using hl
    rcases hl2 with he | he
    · refine ⟨serverKokoroHealthUrl
        ((getEngineCfg c "kokoro").base_url.getD "http://localhost:8880/v1"), ?_, ?_⟩
      · simp [statusHealthUrl, he]
      · cases hnet : net (serverKokoroHealthUrl
            ((getEngineCfg c "kokoro").base_url.getD "http://localhost:8880/v1")) <;>
          simp [tts_status, h, hf, he, LOCAL_ENGINES, statusHealthUrl, hnet]
    · refine ⟨pyRstrip ((getEngineCfg c "piper").base_url.getD
          "http://localhost:8881") '/' ++ "/voices", ?_, ?_⟩
      · simp [statusHealthUrl, he]
      · cases hnet : net (pyRstrip ((getEngineCfg c "piper").base_url.getD
            "http://localhost:8881") '/' ++ "/voices") <;>
          simp [tts_status, h, hf, he, LOCAL_ENGINES, statusHealthUrl, hnet]

/-- C8 witness: the four report shapes on concrete configurations — the
sentinel, an uncatalogued voice, a cloud voice on a dead network, and the
local kokoro voice probed on a dead and on a live network. -/
theorem tts_status_reports_by_engine_witness :
    tts_status exConfigTextOnly netDown =
      { engine := "text_only", status := "ok", label := "Text Only" } ∧
    tts_status exConfigGhost netDown =
      { engine := "unknown", status := "error", label := "Unknown voice" } ∧
    (tts_status exConfigCloud netDown).status = "ok" ∧
    tts_status exConfigCloud netDown = tts_status exConfigCloud netUp ∧
    (tts_status exConfig netDown).status = "offline" ∧
    (tts_status exConfig netUp).status = "online" := by
  have h1 := (tts_status_reports_by_engine exConfigTextOnly netDown).1 rfl
  have h2 := (tts_status_reports_by_engine exConfigGhost netDown).2.1
    (by decide) (by decide)
  have h3 := (tts_status_reports_by_engine exConfigCloud netUp).2.2.1
    { id := "cartesia_female", label := "Cartesia Female", engine := some "cartesia" }
    (by decide) (by decide) (by decide)
  have h4 := (tts_status_reports_by_engine exConfig netDown).2.2.2
    { id := "kokoro_af_heart", label := "Kokoro Heart", engine := some "kokoro" }
    (by decide) (by decide) (by decide)
  have h5 := (tts_status_reports_by_engine exConfig netUp).2.2.2
    { id := "kokoro_af_heart", label := "Kokoro Heart", engine := some "kokoro" }
    (by decide) (by decide) (by decide)
  refine ⟨h1, h2, ?_, h3.2 netDown, ?_, ?_⟩
  · rw [h3.2 netDown]
    exact h3.1
  · obtain ⟨hu, -, hts⟩ := h4
    rw [hts]
    simp [netDown]
  · obtain ⟨hu, -, hts⟩ := h5
    rw [hts]
    simp [netUp]

end LiveKitApp
